import Mathlib

/-!
Shallow embedding of the `testdata_generator` package: the schema-driven
field-generation engine (`testdata_generator/generator.py`) and the output
formatters (`testdata_generator/formatters.py`).

Python values are modelled by the inductive `Value`; a Python float produced
by `round(random.uniform(a, b), p)` is modelled exactly as a scaled decimal
`Value.num scaled p` standing for `scaled / 10 ^ p`.

Randomness: the module shares one seeded pseudo-random stream (`random` /
`Faker`, both seeded by `random.seed(seed)` / `Faker.seed(seed)` in
`TestDataGenerator.__init__`) and, separately, ambient entropy that no seed
controls: `uuid.uuid4()` reads OS entropy and `datetime.utcnow()` reads the
wall clock.  The state `GenState` therefore carries two streams: `seeded`,
a deterministic function of the construction seed, and `ambient`, an
arbitrary stream standing for OS entropy and the clock.  Each draw takes the
next element of the corresponding stream.  External library generators
(Faker's `first_name`, `email`, ...) are modelled as functions of one seeded
draw, since the library itself is an external collaborator.
-/

namespace TestdataGen

/-- Python runtime values that the generator and the formatters handle:
`None`, `bool`, `int`, `float` (as a scaled decimal), `str` and `list`. -/
inductive Value where
  | null
  | bool (b : Bool)
  | int (n : Int)
  | num (scaled : Int) (prec : Nat)
  | str (s : String)
  | list (xs : List Value)

/-- A record is an ordered mapping from field name to value (a Python dict
preserves insertion order). -/
abbrev RecordT : Type := List (String × Value)

/-- Generator state: the seeded pseudo-random stream with its position, and
the ambient (OS entropy / wall clock) stream with its position. -/
structure GenState where
  seeded : Nat → Nat
  seedPos : Nat
  ambient : Nat → Nat
  ambPos : Nat

/-- Draw the next element of the seeded stream. -/
def drawSeeded (st : GenState) : Nat × GenState :=
  (st.seeded st.seedPos, { st with seedPos := st.seedPos + 1 })

/-- Draw the next element of the ambient stream (OS entropy / wall clock). -/
def drawAmbient (st : GenState) : Nat × GenState :=
  (st.ambient st.ambPos, { st with ambPos := st.ambPos + 1 })

/-- Model of the seeded pseudo-random stream: after `random.seed(seed)` and
`Faker.seed(seed)` every draw is a fixed deterministic function of the seed
(the concrete mixing constants stand in for the Mersenne-Twister stream). -/
def seededStream (seed : Nat) : Nat → Nat :=
  fun i => (seed * 6364136223846793005 + i * 1442695040888963407) % (2 ^ 64)

/-- Model of `TestDataGenerator.__init__(locale, seed)`: when a seed is
given, `random.seed(seed)` / `Faker.seed(seed)` reset the seeded stream to a
function of the seed alone; the ambient entropy (OS randomness, wall clock)
is whatever the environment supplies and is never touched by the seed. -/
def mkGenerator (seed : Nat) (ambient : Nat → Nat) : GenState :=
  { seeded := seededStream seed, seedPos := 0, ambient := ambient, ambPos := 0 }

/-- Model of `random.randint(a, b)` in the non-empty-range case `a ≤ b`:
one seeded draw mapped into the inclusive range `[a, b]`. -/
def randintOk (a b : Int) (st : GenState) : Int × GenState :=
  let (k, st') := drawSeeded st
  (a + ((k % (b - a + 1).toNat : Nat) : Int), st')

/-- Model of `random.randint(a, b)`: raises `ValueError` (empty range) when
`a > b`, otherwise draws an inclusive uniform integer. -/
def randint (a b : Int) (st : GenState) : Except String (Int × GenState) :=
  if a ≤ b then .ok (randintOk a b st)
  else .error "empty range for randrange()"

/-- Model of `round(random.uniform(a, b), prec)`: one seeded draw mapped to
a decimal with `prec` fractional digits lying in `[a, b]` (for `a ≤ b`);
`random.uniform` never raises, also when `a > b`. -/
def uniformRound (a b : Int) (prec : Nat) (st : GenState) : Value × GenState :=
  let (k, st') := drawSeeded st
  let steps := ((b - a) * ((10 : Int) ^ prec)).toNat + 1
  (.num (a * ((10 : Int) ^ prec) + ((k % steps : Nat) : Int)) prec, st')

/-- Model of `random.choice(values)` on a non-empty list: one seeded draw
used as an index. -/
def choiceDraw (values : List Value) (st : GenState) : Value × GenState :=
  let (k, st') := drawSeeded st
  (values.getD (k % values.length) .null, st')

/-- The `n`-th letter of `string.ascii_letters` (lowercase then uppercase),
used by the `?` placeholder of `Faker.bothify`. -/
def letterOfNat (n : Nat) : Char :=
  if n < 26 then Char.ofNat (97 + n) else Char.ofNat (65 + (n - 26))

/-- Model of `Faker.bothify` over the pattern characters: `#` becomes a
random digit, `?` a random ASCII letter, anything else is kept. -/
def bothifyAux : List Char → GenState → List Char × GenState
  | [], st => ([], st)
  | c :: cs, st =>
    if c = '#' then
      let (k, st') := drawSeeded st
      let (rest, st'') := bothifyAux cs st'
      (Char.ofNat (48 + k % 10) :: rest, st'')
    else if c = '?' then
      let (k, st') := drawSeeded st
      let (rest, st'') := bothifyAux cs st'
      (letterOfNat (k % 52) :: rest, st'')
    else
      let (rest, st') := bothifyAux cs st
      (c :: rest, st')

/-- Model of `self.fake.bothify(pattern)`. -/
def bothify (pat : String) (st : GenState) : String × GenState :=
  let (cs, st') := bothifyAux pat.toList st
  (String.mk cs, st')

/-- Hexadecimal digit (lowercase), for UUID rendering. -/
def hexDigit (n : Nat) : Char :=
  if n < 10 then Char.ofNat (48 + n) else Char.ofNat (87 + n)

/-- Model of `str(uuid.uuid4())` applied to a 128-bit OS-entropy reading
`r`: the 32 hex nibbles of `r` with the version nibble forced to `4`, the
variant nibble forced into `8..b`, and dashes after nibbles 8, 12, 16, 20. -/
def uuidString (r : Nat) : String :=
  let ds := (List.range 32).map (fun i => r / 16 ^ (31 - i) % 16)
  let ds := ds.set 12 4
  let ds := ds.set 16 (ds.getD 16 0 % 4 + 8)
  let hx := ds.map hexDigit
  String.mk (hx.take 8) ++ "-" ++ String.mk ((hx.drop 8).take 4) ++ "-" ++
    String.mk ((hx.drop 12).take 4) ++ "-" ++ String.mk ((hx.drop 16).take 4) ++
    "-" ++ String.mk (hx.drop 20)

/-- Model of an external Faker generator bound in `_type_map` (for example
`self.fake.first_name`): Faker is seeded by `Faker.seed(seed)`, so each call
is a function of the next seeded draw; the tag records which generator. -/
def fakerStr (tag : String) : GenState → Value × GenState :=
  fun st =>
    let (k, st') := drawSeeded st
    (.str (tag ++ "#" ++ toString k), st')

/-- Model of `self.fake.boolean`: a seeded draw mapped to a Python bool. -/
def fakerBool : GenState → Value × GenState :=
  fun st =>
    let (k, st') := drawSeeded st
    (.bool (k % 2 == 1), st')

/-- Model of `lambda: str(uuid.uuid4())`: `uuid.uuid4` reads 16 bytes of OS
entropy (`os.urandom`), which no call to `random.seed` or `Faker.seed`
influences. -/
def uuidGen : GenState → Value × GenState :=
  fun st =>
    let (k, st') := drawAmbient st
    (.str (uuidString k), st')

/-- Model of `datetime.utcnow().isoformat()`: a textual rendering of the
ambient wall-clock reading (the calendar arithmetic lives in the external
`datetime` library). -/
def utcnowIso (t : Nat) : String := "utcnow:" ++ toString t

/-- Model of `lambda: datetime.utcnow().isoformat() + 'Z'`: the wall clock
is ambient state, untouched by the construction seed. -/
def iso8601Gen : GenState → Value × GenState :=
  fun st =>
    let (t, st') := drawAmbient st
    (.str (utcnowIso t ++ "Z"), st')

/-- Model of `lambda: int(datetime.utcnow().timestamp())`: again a reading
of the ambient wall clock. -/
def timestampGen : GenState → Value × GenState :=
  fun st =>
    let (t, st') := drawAmbient st
    (.int (t : Int), st')

/-- Model of `lambda: random.randint(1, 1000)`, the `'integer'` scalar
entry of `_type_map`. -/
def scalarIntGen : GenState → Value × GenState :=
  fun st =>
    let (n, st') := randintOk 1 1000 st
    (.int n, st')

/-- The `_type_map` table of `TestDataGenerator.__init__`, in source order:
field-type name to generator function. -/
def type_map : List (String × (GenState → Value × GenState)) :=
  [ ("uuid", uuidGen),
    ("first_name", fakerStr "first_name"),
    ("last_name", fakerStr "last_name"),
    ("name", fakerStr "name"),
    ("user_name", fakerStr "user_name"),
    ("password", fakerStr "password"),
    ("email", fakerStr "email"),
    ("company_email", fakerStr "company_email"),
    ("phone", fakerStr "phone_number"),
    ("street_address", fakerStr "street_address"),
    ("city", fakerStr "city"),
    ("state", fakerStr "state"),
    ("zipcode", fakerStr "zipcode"),
    ("country", fakerStr "country"),
    ("address", fakerStr "address"),
    ("credit_card_number", fakerStr "credit_card_number"),
    ("credit_card_provider", fakerStr "credit_card_provider"),
    ("credit_card_expire", fakerStr "credit_card_expire"),
    ("credit_card_security_code", fakerStr "credit_card_security_code"),
    ("datetime", fakerStr "date_time_this_year"),
    ("iso8601", iso8601Gen),
    ("date", fakerStr "date_this_year"),
    ("past_date", fakerStr "past_date"),
    ("future_date", fakerStr "future_date"),
    ("timestamp", timestampGen),
    ("word", fakerStr "word"),
    ("sentence", fakerStr "sentence"),
    ("paragraph", fakerStr "paragraph"),
    ("text", fakerStr "text"),
    ("integer", scalarIntGen),
    ("boolean", fakerBool),
    ("ean13", fakerStr "ean13"),
    ("isbn13", fakerStr "isbn13"),
    ("ipv4", fakerStr "ipv4"),
    ("ipv6", fakerStr "ipv6"),
    ("url", fakerStr "url"),
    ("domain", fakerStr "domain_name"),
    ("mac_address", fakerStr "mac_address"),
    ("company", fakerStr "company"),
    ("job_title", fakerStr "job") ]

/-- A field specification as `_generate_field` sees it: a scalar type name
(a Python `str`), a structured spec (a Python `dict`, of which only the keys
`type`, `min`, `max`, `precision`, `values`, `pattern`, `item`, `count` are
ever read, each possibly absent), or any other Python object (neither `str`
nor `dict`), carried with its `repr` for the error message. -/
inductive FieldSpec where
  | str (s : String)
  | dict (type? : Option String) (min? : Option Int) (max? : Option Int)
      (precision? : Option Nat) (values? : Option (List Value))
      (pattern? : Option String) (item? : Option FieldSpec)
      (countKey? : Option Int)
  | other (pyRepr : String)

/-- Structured integer spec `{'type': 'integer', 'min': a, 'max': b}`. -/
def intSpec (a b : Int) : FieldSpec :=
  .dict (some "integer") (some a) (some b) none none none none none

/-- Structured decimal spec
`{'type': 'decimal', 'min': a, 'max': b, 'precision': p}`. -/
def decSpec (a b : Int) (p : Nat) : FieldSpec :=
  .dict (some "decimal") (some a) (some b) (some p) none none none none

/-- Structured choice spec `{'type': 'choice', 'values': vs}`. -/
def choiceSpec (vs : List Value) : FieldSpec :=
  .dict (some "choice") none none none (some vs) none none none

/-- Structured pattern spec `{'type': 'pattern', 'pattern': p}`. -/
def patternSpec (p : String) : FieldSpec :=
  .dict (some "pattern") none none none none (some p) none none

/-- Structured list spec `{'type': 'list', 'item': i, 'count': n}`. -/
def listSpec (i : FieldSpec) (n : Int) : FieldSpec :=
  .dict (some "list") none none none none none (some i) (some n)

/-- Python's rendering of `field_spec.get('type')` inside the
`Unknown field type` message: a missing key prints as `None`. -/
def typeRepr : Option String → String
  | some t => t
  | none => "None"

/-- Run one value generator `count` times, threading the state, as the list
comprehension `[self._generate_field(item_spec) for _ in range(count)]`
does; the first raised error aborts the comprehension. -/
def iterateGen (step : GenState → Except String (Value × GenState)) :
    Nat → GenState → Except String (List Value × GenState)
  | 0, st => .ok ([], st)
  | n + 1, st =>
    match step st with
    | .error e => .error e
    | .ok (v, st') =>
      match iterateGen step n st' with
      | .error e => .error e
      | .ok (vs, st'') => .ok (v :: vs, st'')

/-- Model of `TestDataGenerator._generate_field(field_spec)`.  Strings are
looked up in `_type_map` (unknown name: `ValueError`); dicts dispatch on
their `type` key with the source's defaults (`min` 0, `max` 100,
`precision` 2, `values` `[]`, `pattern` `''`, `count` 3); a `list` spec
recursively resolves its `item` `count` times — a missing `item` resolves
`None`, which on the first iteration raises `Invalid field specification:
None` (so `count == 0` still yields an empty list); an unrecognized or
missing `type` raises `Unknown field type`; any non-`str`, non-`dict` spec
raises `Invalid field specification`. -/
def generate_field : FieldSpec → GenState → Except String (Value × GenState)
  | .str s, st =>
    match type_map.lookup s with
    | some g => .ok (g st)
    | none => .error ("Unknown field type: " ++ s)
  | .other r, _ => .error ("Invalid field specification: " ++ r)
  | .dict type? min? max? precision? values? pattern? item? countKey?, st =>
    if type? = some "integer" then
      match randint (min?.getD 0) (max?.getD 100) st with
      | .error e => .error e
      | .ok (n, st') => .ok (.int n, st')
    else if type? = some "decimal" then
      let (v, st') := uniformRound (min?.getD 0) (max?.getD 100) (precision?.getD 2) st
      .ok (v, st')
    else if type? = some "choice" then
      let values := values?.getD []
      if values.isEmpty then .ok (.null, st)
      else
        let (v, st') := choiceDraw values st
        .ok (v, st')
    else if type? = some "pattern" then
      let (s, st') := bothify (pattern?.getD "") st
      .ok (.str s, st')
    else if type? = some "list" then
      let n := (countKey?.getD 3).toNat
      match item? with
      | some ispec =>
        match iterateGen (generate_field ispec) n st with
        | .error e => .error e
        | .ok (vs, st') => .ok (.list vs, st')
      | none =>
        if n = 0 then .ok (.list [], st)
        else .error "Invalid field specification: None"
    else
      .error ("Unknown field type: " ++ typeRepr type?)

/-- One iteration of the record loop of `generate_from_schema`: iterate the
schema fields in declared order, resolve each once, and assemble the ordered
record; a raised error aborts the record. -/
def genRecord : List (String × FieldSpec) → GenState →
    Except String (RecordT × GenState)
  | [], st => .ok ([], st)
  | (fname, spec) :: rest, st =>
    match generate_field spec st with
    | .error e => .error e
    | .ok (v, st') =>
      match genRecord rest st' with
      | .error e => .error e
      | .ok (r, st'') => .ok ((fname, v) :: r, st'')

/-- Model of `TestDataGenerator.generate_from_schema(schema, count)`: build
`count` records in order; a raised error aborts the whole call, returning no
records at all. -/
def generate_from_schema (schema : List (String × FieldSpec)) :
    Nat → GenState → Except String (List RecordT × GenState)
  | 0, st => .ok ([], st)
  | n + 1, st =>
    match genRecord schema st with
    | .error e => .error e
    | .ok (r, st') =>
      match generate_from_schema schema n st' with
      | .error e => .error e
      | .ok (rs, st'') => .ok (r :: rs, st'')

/-- The `TestDataGenerator.TEMPLATES` registry, translated entry by entry
in source order. -/
def TEMPLATES : List (String × List (String × FieldSpec)) :=
  [ ("user",
      [ ("id", .str "uuid"),
        ("first_name", .str "first_name"),
        ("last_name", .str "last_name"),
        ("email", .str "email"),
        ("phone", .str "phone"),
        ("created_at", .str "datetime") ]),
    ("address",
      [ ("street", .str "street_address"),
        ("city", .str "city"),
        ("state", .str "state"),
        ("zip_code", .str "zipcode"),
        ("country", .str "country") ]),
    ("payment",
      [ ("card_number", .str "credit_card_number"),
        ("card_type", .str "credit_card_provider"),
        ("expiry", .str "credit_card_expire"),
        ("cvv", .str "credit_card_security_code") ]),
    ("product",
      [ ("id", .str "uuid"),
        ("name", .str "word"),
        ("description", .str "sentence"),
        ("price", decSpec 1 1000 2),
        ("sku", .str "ean13"),
        ("in_stock", .str "boolean") ]),
    ("order",
      [ ("order_id", .str "uuid"),
        ("customer_email", .str "email"),
        ("total", decSpec 10 5000 2),
        ("status", choiceSpec [.str "pending", .str "processing", .str "shipped",
          .str "delivered", .str "cancelled"]),
        ("created_at", .str "datetime") ]),
    ("api_response",
      [ ("request_id", .str "uuid"),
        ("timestamp", .str "iso8601"),
        ("status_code", choiceSpec [.int 200, .int 201, .int 400, .int 404, .int 500]),
        ("latency_ms", intSpec 10 2000) ]),
    ("login",
      [ ("username", .str "user_name"),
        ("password", .str "password"),
        ("email", .str "email") ]),
    ("employee",
      [ ("employee_id", patternSpec "EMP-####"),
        ("first_name", .str "first_name"),
        ("last_name", .str "last_name"),
        ("email", .str "company_email"),
        ("department", choiceSpec [.str "Engineering", .str "QA", .str "Product",
          .str "Design", .str "HR", .str "Finance"]),
        ("hire_date", .str "past_date"),
        ("salary", decSpec 50000 200000 2) ]) ]

/-- The comma-separated list of template names used in the error message of
`generate`. -/
def availableTemplates : String :=
  String.intercalate ", " (TEMPLATES.map Prod.fst)

/-- Model of `TestDataGenerator.generate(template_name, count)`: unknown
names raise `Unknown template: ... . Available: ...`, known names delegate
to `generate_from_schema`. -/
def generate (template_name : String) (count : Nat) (st : GenState) :
    Except String (List RecordT × GenState) :=
  match TEMPLATES.lookup template_name with
  | some schema => generate_from_schema schema count st
  | none =>
    .error ("Unknown template: " ++ template_name ++ ". Available: " ++ availableTemplates)

/-- Model of `TestDataGenerator.list_templates()`. -/
def list_templates : List String := TEMPLATES.map Prod.fst

/-- Model of `TestDataGenerator.list_field_types()`. -/
def list_field_types : List String := type_map.map Prod.fst

/-- Model of `TestDataGenerator.get_template_schema(template_name)`: the
unknown-template message here names the identifier only, without the
`Available: ...` suffix that `generate` appends. -/
def get_template_schema (template_name : String) :
    Except String (List (String × FieldSpec)) :=
  match TEMPLATES.lookup template_name with
  | some schema => .ok schema
  | none => .error ("Unknown template: " ++ template_name)

/-! Formatters (`testdata_generator/formatters.py`). -/

/-- A run of `n` spaces, for JSON indentation. -/
def nspaces (n : Nat) : String := String.mk (List.replicate n ' ')

/-- Four lowercase hex digits, for `\u` escapes. -/
def hexStr4 (n : Nat) : String :=
  String.mk [hexDigit (n / 4096 % 16), hexDigit (n / 256 % 16),
    hexDigit (n / 16 % 16), hexDigit (n % 16)]

/-- Escaping of one character under `json.dumps` (default `ensure_ascii`):
everything outside the printable ASCII range `0x20..0x7e` is escaped. -/
def jsonEscapeChar (c : Char) : String :=
  if c = '"' then "\\\""
  else if c = '\\' then "\\\\"
  else if c = '\n' then "\\n"
  else if c = '\r' then "\\r"
  else if c = '\t' then "\\t"
  else if c.toNat = 8 then "\\b"
  else if c.toNat = 12 then "\\f"
  else if c.toNat < 32 then "\\u" ++ hexStr4 c.toNat
  else if c.toNat < 127 then String.singleton c
  else if c.toNat < 65536 then "\\u" ++ hexStr4 c.toNat
  else
    let v := c.toNat - 65536
    "\\u" ++ hexStr4 (55296 + v / 1024) ++ "\\u" ++ hexStr4 (56320 + v % 1024)

/-- A JSON string literal for `s`. -/
def jsonString (s : String) : String :=
  "\"" ++ String.join (s.toList.map jsonEscapeChar) ++ "\""

/-- Drop trailing zero characters. -/
def trimZeros (s : String) : String :=
  String.mk ((s.toList.reverse.dropWhile (fun c => c = '0')).reverse)

/-- Model of `str(float)` applied to the scaled decimal `scaled / 10^prec`:
integer part, dot, fractional digits with trailing zeros trimmed (at least
one digit is kept, so an integral float prints as `x.0`). -/
def decimalString (scaled : Int) (prec : Nat) : String :=
  let sign := if scaled < 0 then "-" else ""
  let a := scaled.natAbs
  let fracDigits := toString (a % 10 ^ prec)
  let fracRaw :=
    String.mk (List.replicate (prec - fracDigits.length) '0') ++ fracDigits
  let frac := if trimZeros fracRaw = "" then "0" else trimZeros fracRaw
  sign ++ toString (a / 10 ^ prec) ++ "." ++ frac

mutual

/-- Compact `json.dumps(value)` (default separators), used by the CSV and
SQL formatters for nested list values. -/
def jsonValue : Value → String
  | .null => "null"
  | .bool b => if b then "true" else "false"
  | .int n => toString n
  | .num s p => decimalString s p
  | .str s => jsonString s
  | .list xs => "[" ++ String.intercalate ", " (jsonValues xs) ++ "]"

/-- Compact rendering of each element of a list value. -/
def jsonValues : List Value → List String
  | [] => []
  | v :: vs => jsonValue v :: jsonValues vs

end

mutual

/-- `json.dumps` rendering of one value with indentation `step`, written at
current indentation `ind`: scalars are compact, non-empty lists open a
block. -/
def jsonValueInd (step ind : Nat) : Value → String
  | .list [] => "[]"
  | .list (x :: xs) =>
    "[\n" ++ String.intercalate ",\n" (jsonValLines step (ind + step) (x :: xs)) ++
      "\n" ++ nspaces ind ++ "]"
  | .null => "null"
  | .bool b => if b then "true" else "false"
  | .int n => toString n
  | .num s p => decimalString s p
  | .str s => jsonString s

/-- Lines of an indented list body. -/
def jsonValLines (step ind : Nat) : List Value → List String
  | [] => []
  | v :: vs => (nspaces ind ++ jsonValueInd step ind v) :: jsonValLines step ind vs

end

/-- Lines of an indented JSON object body, one `"key": value` per field. -/
def jsonFieldLines (step ind : Nat) : List (String × Value) → List String
  | [] => []
  | (k, v) :: rest =>
    (nspaces (ind + step) ++ jsonString k ++ ": " ++ jsonValueInd step (ind + step) v) ::
      jsonFieldLines step ind rest

/-- `json.dumps` rendering of one record (a JSON object) with indentation
`step`, written at current indentation `ind`. -/
def jsonRecord (step ind : Nat) (r : List (String × Value)) : String :=
  match r with
  | [] => "\x7b\x7d"
  | _ =>
    "\x7b\n" ++ String.intercalate ",\n" (jsonFieldLines step ind r) ++ "\n" ++
      nspaces ind ++ "\x7d"

/-- Lines of the top-level JSON array of records. -/
def jsonRecordLines (step : Nat) : List (List (String × Value)) → List String
  | [] => []
  | r :: rs => (nspaces step ++ jsonRecord step step r) :: jsonRecordLines step rs

/-- Configuration of `JSONFormatter` (`indent`, `single_object`). -/
structure JSONFormatter where
  indent : Nat := 2
  single_object : Bool := false

/-- Model of `JSONFormatter.format`: `json.dumps(data, indent=...)`, or the
sole record unwrapped when `single_object` is set and there is exactly one
record. -/
def JSONFormatter.format (f : JSONFormatter) (data : List RecordT) : String :=
  if f.single_object && data.length == 1 then
    jsonRecord f.indent 0 (data.headD [])
  else
    match data with
    | [] => "[]"
    | _ => "[\n" ++ String.intercalate ",\n" (jsonRecordLines f.indent data) ++ "\n]"

/-- Configuration of `CSVFormatter` (`delimiter`, `include_header`). -/
structure CSVFormatter where
  delimiter : Char := ','
  include_header : Bool := true

/-- Doubling of every occurrence of one character (`str.replace(c, c + c)`
for a one-character pattern). -/
def doubleCharAux (target : Char) : List Char → List Char
  | [] => []
  | c :: cs =>
    if c = target then c :: c :: doubleCharAux target cs
    else c :: doubleCharAux target cs

/-- String version of `doubleCharAux`. -/
def doubleChar (target : Char) (s : String) : String :=
  String.mk (doubleCharAux target s.toList)

/-- Python's `str.strip()` on both ends, over the character list. -/
def stripWs (s : String) : String :=
  String.mk
    (((s.toList.dropWhile Char.isWhitespace).reverse.dropWhile Char.isWhitespace).reverse)

/-- Whether `csv.QUOTE_MINIMAL` quotes a cell: it contains the delimiter,
the quote character, or a line-terminator character. -/
def csvNeedsQuote (delim : Char) (s : String) : Bool :=
  s.toList.any (fun c => c = delim || c = '"' || c = '\r' || c = '\n')

/-- One CSV cell under `QUOTE_MINIMAL`: quoted with embedded quotes doubled
when needed, verbatim otherwise. -/
def csvCell (delim : Char) (s : String) : String :=
  if csvNeedsQuote delim s then "\"" ++ doubleChar '"' s ++ "\"" else s

/-- `CSVFormatter._flatten_value` composed with the `csv` writer's own
stringification: lists are serialized with compact `json.dumps`, `None`
becomes the empty cell, anything else is `str(value)`. -/
def flattenValue : Value → String
  | .list xs => jsonValue (.list xs)
  | .null => ""
  | .bool b => if b then "True" else "False"
  | .int n => toString n
  | .num s p => decimalString s p
  | .str s => s

/-- `csv.DictWriter`'s per-row extraction: a key outside `fieldnames`
raises `ValueError`; a missing key falls back to the empty `restval`. -/
def dictToRow (fieldnames : List String) (row : List (String × Value)) :
    Except String (List String) :=
  let extra := (row.map Prod.fst).filter (fun k => !fieldnames.contains k)
  if extra.isEmpty then
    .ok (fieldnames.map (fun c => flattenValue ((row.lookup c).getD .null)))
  else
    .error ("dict contains fields not in fieldnames: " ++ String.intercalate ", " extra)

/-- The data lines written by `CSVFormatter.format`, one per record. -/
def rowsToLines (delim : Char) (fieldnames : List String) :
    List (List (String × Value)) → Except String (List String)
  | [] => .ok []
  | row :: rest =>
    match dictToRow fieldnames row with
    | .error e => .error e
    | .ok cells =>
      match rowsToLines delim fieldnames rest with
      | .error e => .error e
      | .ok ls =>
        .ok (String.intercalate (String.singleton delim) (cells.map (csvCell delim)) :: ls)

/-- Model of `CSVFormatter.format`: empty data yields the empty string;
otherwise column names come from the first record, an optional header line
is followed by one line per record (`csv` terminates lines with CRLF), and
the final `.strip()` removes the trailing terminator. -/
def CSVFormatter.format (f : CSVFormatter) (data : List RecordT) :
    Except String String :=
  match data with
  | [] => .ok ""
  | first :: _ =>
    let fieldnames := first.map Prod.fst
    let header :=
      if f.include_header then
        [String.intercalate (String.singleton f.delimiter)
          (fieldnames.map (csvCell f.delimiter))]
      else []
    match rowsToLines f.delimiter fieldnames data with
    | .error e => .error e
    | .ok lines =>
      .ok (stripWs (String.intercalate "\r\n" (header ++ lines) ++ "\r\n"))

/-- Configuration of `SQLFormatter` (`table_name`, `dialect`). -/
structure SQLFormatter where
  table_name : String := "test_data"
  dialect : String := "standard"

/-- Model of `SQLFormatter._quote_identifier`: backticks for `mysql`,
double quotes for `postgresql`, bare otherwise. -/
def quote_identifier (dialect : String) (ident : String) : String :=
  if dialect = "mysql" then "`" ++ ident ++ "`"
  else if dialect = "postgresql" then "\"" ++ ident ++ "\""
  else ident

/-- The single-quote character, written by code point. -/
def sq : String := String.singleton (Char.ofNat 39)

/-- Model of `SQLFormatter._format_value`: `None` to the `NULL` keyword,
bools to `TRUE`/`FALSE`, numbers bare, lists as quoted compact JSON, and
strings single-quoted with embedded single quotes doubled. -/
def format_value : Value → String
  | .null => "NULL"
  | .bool b => if b then "TRUE" else "FALSE"
  | .int n => toString n
  | .num s p => decimalString s p
  | .list xs => sq ++ jsonValue (.list xs) ++ sq
  | .str s => sq ++ doubleChar (Char.ofNat 39) s ++ sq

/-- Model of `SQLFormatter.format`: empty data yields the empty string;
otherwise columns come from the first record and each record becomes one
`INSERT INTO t (cols) VALUES (vals);` statement, newline-joined. -/
def SQLFormatter.format (f : SQLFormatter) (data : List RecordT) : String :=
  match data with
  | [] => ""
  | first :: _ =>
    let columns := first.map Prod.fst
    let column_list := String.intercalate ", " (columns.map (quote_identifier f.dialect))
    let stmts := data.map (fun row =>
      "INSERT INTO " ++ quote_identifier f.dialect f.table_name ++ " (" ++
        column_list ++ ") VALUES (" ++
        String.intercalate ", "
          (columns.map (fun c => format_value ((row.lookup c).getD .null))) ++ ");")
    String.intercalate "\n" stmts

/-! Helper lemmas shared by the claim theorems. -/

/-- A concrete state used by the witnesses: the seeded stream counts up
from 0, the ambient stream counts up from 100. -/
def testState : GenState := ⟨fun i => i, 0, fun i => i + 100, 0⟩

/-- Association-list lookup misses exactly the keys outside the key list. -/
theorem lookup_eq_none_of_not_mem {β : Type} (l : List (String × β)) (s : String)
    (h : s ∉ l.map Prod.fst) : l.lookup s = none := by
  induction l with
  | nil => rfl
  | cons p rest ih =>
    obtain ⟨k, v⟩ := p
    simp only [List.map_cons, List.mem_cons] at h
    push_neg at h
    have hbe : (s == k) = false := beq_false_of_ne h.1
    simp [List.lookup, hbe, ih h.2]

/-- Association-list lookup hits every key in the key list. -/
theorem lookup_isSome_of_mem {β : Type} (l : List (String × β)) (s : String)
    (h : s ∈ l.map Prod.fst) : ∃ b, l.lookup s = some b := by
  induction l with
  | nil => simp at h
  | cons p rest ih =>
    obtain ⟨k, v⟩ := p
    by_cases hk : s = k
    · subst hk
      exact ⟨v, by simp [List.lookup]⟩
    · have hbe : (s == k) = false := beq_false_of_ne hk
      simp only [List.map_cons, List.mem_cons] at h
      rcases h with h | h
      · exact absurd h hk
      · obtain ⟨b, hb⟩ := ih h
        exact ⟨b, by simp [List.lookup, hbe, hb]⟩

/-- Unfolding of `generate_field` on a scalar type name. -/
theorem gf_str (s : String) (st : GenState) :
    generate_field (.str s) st =
      (match type_map.lookup s with
       | some g => .ok (g st)
       | none => .error ("Unknown field type: " ++ s)) := rfl

/-- Unfolding of `generate_field` on a structured spec: the dispatch chain
of `_generate_field`, verbatim. -/
theorem gf_dict (t : Option String) (mi ma : Option Int) (pr : Option Nat)
    (vs : Option (List Value)) (pa : Option String) (it : Option FieldSpec)
    (cnt : Option Int) (st : GenState) :
    generate_field (.dict t mi ma pr vs pa it cnt) st =
      (if t = some "integer" then
        match randint (mi.getD 0) (ma.getD 100) st with
        | .error e => .error e
        | .ok (n, st') => .ok (.int n, st')
      else if t = some "decimal" then
        let (v, st') := uniformRound (mi.getD 0) (ma.getD 100) (pr.getD 2) st
        .ok (v, st')
      else if t = some "choice" then
        let values := vs.getD []
        if values.isEmpty then .ok (.null, st)
        else
          let (v, st') := choiceDraw values st
          .ok (v, st')
      else if t = some "pattern" then
        let (s, st') := bothify (pa.getD "") st
        .ok (.str s, st')
      else if t = some "list" then
        let n := (cnt.getD 3).toNat
        match it with
        | some ispec =>
          match iterateGen (generate_field ispec) n st with
          | .error e => .error e
          | .ok (vsl, st') => .ok (.list vsl, st')
        | none =>
          if n = 0 then .ok (.list [], st)
          else .error "Invalid field specification: None"
      else
        .error ("Unknown field type: " ++ typeRepr t)) := by
  cases it with
  | none => rfl
  | some i => rfl

/-- C3: formatting the single record `{name: "O'Brien", active: true,
score: null}` with the SQL formatter under the unquoted (`standard`)
dialect and table `t` yields exactly
`INSERT INTO t (name, active, score) VALUES ('O''Brien', TRUE, NULL);`:
null maps to `NULL`, booleans to `TRUE`/`FALSE`, strings are single-quoted
with embedded single quotes doubled, and columns appear in record order. -/
theorem sql_format_obrien_record :
    SQLFormatter.format { table_name := "t", dialect := "standard" }
      [[("name", .str ("O" ++ sq ++ "Brien")), ("active", .bool true), ("score", .null)]]
    = "INSERT INTO t (name, active, score) VALUES (" ++ sq ++ "O" ++ sq ++ sq ++
        "Brien" ++ sq ++ ", TRUE, NULL);" := by
  decide

/-- C9: formatting an empty record sequence with the CSV formatter or the
SQL formatter yields the empty string, for every formatter configuration
(delimiter, header flag, table name, dialect). -/
theorem empty_data_formats_to_empty_string (csvF : CSVFormatter) (sqlF : SQLFormatter) :
    CSVFormatter.format csvF [] = .ok "" ∧ SQLFormatter.format sqlF [] = "" :=
  ⟨rfl, rfl⟩

/-- C6: resolving a `choice` spec with an empty `values` list (or with the
`values` key absent) returns null without consuming entropy and is not an
error; a singleton `values` list always returns exactly its element; and
for every non-empty `values` list the result is an element of the list. -/
theorem choice_resolution_semantics :
    (∀ st, generate_field (choiceSpec []) st = .ok (.null, st)) ∧
    (∀ st, generate_field (.dict (some "choice") none none none none none none none) st
      = .ok (.null, st)) ∧
    (∀ x st, ∃ st', generate_field (choiceSpec [x]) st = .ok (x, st')) ∧
    (∀ vs v st st', generate_field (choiceSpec vs) st = .ok (v, st') → vs ≠ [] → v ∈ vs) := by
  refine ⟨fun st => rfl, fun st => rfl, fun x st => ?_, fun vs v st st' h hne => ?_⟩
  · refine ⟨{ st with seedPos := st.seedPos + 1 }, ?_⟩
    calc generate_field (choiceSpec [x]) st
        = .ok ([x].getD (st.seeded st.seedPos % 1) .null,
            { st with seedPos := st.seedPos + 1 }) := rfl
      _ = .ok (x, { st with seedPos := st.seedPos + 1 }) := by rw [Nat.mod_one]; rfl
  · match vs, hne with
    | a :: as, _ =>
      have he : generate_field (choiceSpec (a :: as)) st
          = .ok ((a :: as).getD (st.seeded st.seedPos % (a :: as).length) .null,
              { st with seedPos := st.seedPos + 1 }) := rfl
      rw [he] at h
      simp only [Except.ok.injEq, Prod.mk.injEq] at h
      have hlt : st.seeded st.seedPos % (a :: as).length < (a :: as).length :=
        Nat.mod_lt _ (by simp)
      rw [List.getD_eq_getElem _ _ hlt] at h
      rw [← h.1]
      exact List.getElem_mem hlt

/-- Witness for C6: the empty choice on the test state, and the first
element drawn from a two-element choice on the test state. -/
theorem choice_resolution_semantics_witness :
    generate_field (choiceSpec []) testState = .ok (.null, testState) ∧
    Value.int 7 ∈ [Value.int 7, Value.int 9] :=
  ⟨choice_resolution_semantics.1 testState,
   choice_resolution_semantics.2.2.2 [Value.int 7, Value.int 9] (Value.int 7)
     testState ⟨fun i => i, 1, fun i => i + 100, 0⟩ rfl (List.cons_ne_nil _ _)⟩

/-- C7: the field resolver fails with an `Unknown field type` error naming
the offending type for any scalar name outside the generator table and for
any structured spec whose `type` is unrecognized or missing (a missing key
prints as `None`); a spec that is neither a string nor a mapping fails with
the distinct `Invalid field specification` error. -/
theorem field_resolver_error_taxonomy :
    (∀ s st, s ∉ list_field_types →
      generate_field (.str s) st = .error ("Unknown field type: " ++ s)) ∧
    (∀ t min? max? prec? vals? pat? item? cnt? st,
      t ≠ some "integer" → t ≠ some "decimal" → t ≠ some "choice" →
      t ≠ some "pattern" → t ≠ some "list" →
      generate_field (.dict t min? max? prec? vals? pat? item? cnt?) st
        = .error ("Unknown field type: " ++ typeRepr t)) ∧
    (∀ r st, generate_field (.other r) st
      = .error ("Invalid field specification: " ++ r)) ∧
    (∀ s r, ("Unknown field type: " ++ s) ≠ ("Invalid field specification: " ++ r)) := by
  refine ⟨fun s st h => ?_, fun t min? max? prec? vals? pat? item? cnt? st h1 h2 h3 h4 h5 => ?_,
    fun r st => rfl, fun s r h => ?_⟩
  · have hl : type_map.lookup s = none := lookup_eq_none_of_not_mem _ _ h
    rw [gf_str, hl]
  · rw [gf_dict, if_neg h1, if_neg h2, if_neg h3, if_neg h4, if_neg h5]
  · have hU : ("Unknown field type: " ++ s).get 0 = 'U' := rfl
    rw [h] at hU
    have hI : ("Invalid field specification: " ++ r).get 0 = 'I' := rfl
    rw [hI] at hU
    exact absurd hU (by decide)

/-- Witness for C7 at the concrete inputs `"not_a_type"`, a dict with type
`"frob"`, and the non-string non-dict object `42`. -/
theorem field_resolver_error_taxonomy_witness :
    generate_field (.str "not_a_type") testState
      = .error ("Unknown field type: " ++ "not_a_type") ∧
    generate_field (.dict (some "frob") none none none none none none none) testState
      = .error ("Unknown field type: " ++ typeRepr (some "frob")) ∧
    generate_field (.other "42") testState
      = .error ("Invalid field specification: " ++ "42") ∧
    ("Unknown field type: " ++ "not_a_type") ≠ ("Invalid field specification: " ++ "42") :=
  ⟨field_resolver_error_taxonomy.1 "not_a_type" testState (by decide),
   field_resolver_error_taxonomy.2.1 (some "frob") none none none none none none none
     testState (by decide) (by decide) (by decide) (by decide) (by decide),
   field_resolver_error_taxonomy.2.2.1 "42" testState,
   field_resolver_error_taxonomy.2.2.2 "not_a_type" "42"⟩

/-- C8: for integers `a ≤ b`, resolving `{type: integer, min: a, max: b}`
returns an integer within the inclusive bounds, and omitting `min` and
`max` uses the defaults 0 and 100. -/
theorem integer_spec_inclusive_bounds (a b : Int) (st : GenState) (h : a ≤ b) :
    (∃ n st', generate_field (intSpec a b) st = .ok (.int n, st') ∧ a ≤ n ∧ n ≤ b) ∧
    generate_field (.dict (some "integer") none none none none none none none) st
      = generate_field (intSpec 0 100) st := by
  refine ⟨⟨a + ((st.seeded st.seedPos % (b - a + 1).toNat : Nat) : Int),
    { st with seedPos := st.seedPos + 1 }, ?_, by omega, ?_⟩, rfl⟩
  · have he : generate_field (intSpec a b) st =
        (match randint a b st with
         | .error e => .error e
         | .ok (n, st') => .ok (.int n, st')) := rfl
    rw [he]
    unfold randint
    rw [if_pos h]
    rfl
  · have hm : (st.seeded st.seedPos % (b - a + 1).toNat) < (b - a + 1).toNat :=
      Nat.mod_lt _ (by omega)
    omega

/-- Witness for C8 at `a = 2`, `b = 5` on the test state. -/
theorem integer_spec_inclusive_bounds_witness :
    (∃ n st', generate_field (intSpec 2 5) testState = .ok (.int n, st') ∧ 2 ≤ n ∧ n ≤ 5) ∧
    generate_field (.dict (some "integer") none none none none none none none) testState
      = generate_field (intSpec 0 100) testState :=
  integer_spec_inclusive_bounds 2 5 testState (by decide)

/-- C5 counterexample: `get_template_schema "nope"` raises exactly
`Unknown template: nope`, a message in which no registered template name
occurs — so this entry point does not list the available names. -/
theorem get_template_schema_lists_nothing :
    get_template_schema "nope" = .error "Unknown template: nope" ∧
    list_templates.all
      (fun name => !(decide (name.toList <:+: ("Unknown template: nope").toList))) = true :=
  ⟨rfl, by decide⟩

/-- C5 amended: for an unregistered name, `get_template_schema` fails with
an `Unknown template` error naming the invalid identifier but without
listing the available names, while `generate` fails with an `Unknown
template` error that both names the identifier and lists every available
template name. -/
theorem unknown_template_error_shapes (name : String) (h : name ∉ list_templates) :
    get_template_schema name = .error ("Unknown template: " ++ name) ∧
    (∀ count st, generate name count st =
      .error ("Unknown template: " ++ name ++ ". Available: " ++ availableTemplates)) ∧
    availableTemplates =
      "user, address, payment, product, order, api_response, login, employee" := by
  have hl : TEMPLATES.lookup name = none :=
    lookup_eq_none_of_not_mem _ _ (by simpa [list_templates] using h)
  refine ⟨?_, fun count st => ?_, rfl⟩
  · unfold get_template_schema
    rw [hl]
  · unfold generate
    rw [hl]

/-- Witness for the amended C5 at the concrete name `"nope"`. -/
theorem unknown_template_error_shapes_witness :
    get_template_schema "nope" = .error ("Unknown template: " ++ "nope") ∧
    generate "nope" 0 testState =
      .error ("Unknown template: " ++ "nope" ++ ". Available: " ++ availableTemplates) :=
  ⟨(unknown_template_error_shapes "nope" (by decide)).1,
   (unknown_template_error_shapes "nope" (by decide)).2.1 0 testState⟩


/-- Unfolding of `genRecord` when the head field fails. -/
theorem genRecord_cons_err {spec : FieldSpec} {st : GenState} {e : String}
    (fname : String) (rest : List (String × FieldSpec))
    (hgf : generate_field spec st = .error e) :
    genRecord ((fname, spec) :: rest) st = .error e := by
  show (match generate_field spec st with
    | Except.error e => Except.error e
    | Except.ok (v, st') =>
      match genRecord rest st' with
      | Except.error e => Except.error e
      | Except.ok (r, st'') => Except.ok ((fname, v) :: r, st'')) = Except.error e
  rw [hgf]

/-- Unfolding of `genRecord` when the head field succeeds but the rest of
the record fails. -/
theorem genRecord_cons_ok_err {spec : FieldSpec} {st : GenState} {v : Value}
    {st1 : GenState} {e : String}
    (fname : String) (rest : List (String × FieldSpec))
    (hgf : generate_field spec st = .ok (v, st1))
    (hgr : genRecord rest st1 = .error e) :
    genRecord ((fname, spec) :: rest) st = .error e := by
  show (match generate_field spec st with
    | Except.error e => Except.error e
    | Except.ok (v, st') =>
      match genRecord rest st' with
      | Except.error e => Except.error e
      | Except.ok (r, st'') => Except.ok ((fname, v) :: r, st'')) = Except.error e
  rw [hgf]
  show (match genRecord rest st1 with
    | Except.error e => Except.error e
    | Except.ok (r, st'') => Except.ok ((fname, v) :: r, st'')) = Except.error e
  rw [hgr]

/-- Unfolding of `genRecord` when head field and rest both succeed. -/
theorem genRecord_cons_ok_ok {spec : FieldSpec} {st : GenState} {v : Value}
    {st1 : GenState} {r : RecordT} {st2 : GenState}
    (fname : String) (rest : List (String × FieldSpec))
    (hgf : generate_field spec st = .ok (v, st1))
    (hgr : genRecord rest st1 = .ok (r, st2)) :
    genRecord ((fname, spec) :: rest) st = .ok ((fname, v) :: r, st2) := by
  show (match generate_field spec st with
    | Except.error e => Except.error e
    | Except.ok (v, st') =>
      match genRecord rest st' with
      | Except.error e => Except.error e
      | Except.ok (r, st'') => Except.ok ((fname, v) :: r, st'')) = _
  rw [hgf]
  show (match genRecord rest st1 with
    | Except.error e => Except.error e
    | Except.ok (r, st'') => Except.ok ((fname, v) :: r, st'')) = _
  rw [hgr]

/-- Unfolding of `generate_from_schema` when the next record fails. -/
theorem generate_from_schema_succ_err {schema : List (String × FieldSpec)}
    {st : GenState} {e : String} (n : Nat)
    (hr : genRecord schema st = .error e) :
    generate_from_schema schema (n + 1) st = .error e := by
  show (match genRecord schema st with
    | Except.error e => Except.error e
    | Except.ok (r, st') =>
      match generate_from_schema schema n st' with
      | Except.error e => Except.error e
      | Except.ok (rs, st'') => Except.ok (r :: rs, st'')) = Except.error e
  rw [hr]

/-- Unfolding of `generate_from_schema` when the next record succeeds but
a later one fails. -/
theorem generate_from_schema_succ_ok_err {schema : List (String × FieldSpec)}
    {st : GenState} {r : RecordT} {st1 : GenState} {e : String} (n : Nat)
    (hr : genRecord schema st = .ok (r, st1))
    (hrest : generate_from_schema schema n st1 = .error e) :
    generate_from_schema schema (n + 1) st = .error e := by
  show (match genRecord schema st with
    | Except.error e => Except.error e
    | Except.ok (r, st') =>
      match generate_from_schema schema n st' with
      | Except.error e => Except.error e
      | Except.ok (rs, st'') => Except.ok (r :: rs, st'')) = Except.error e
  rw [hr]
  show (match generate_from_schema schema n st1 with
    | Except.error e => Except.error e
    | Except.ok (rs, st'') => Except.ok (r :: rs, st'')) = Except.error e
  rw [hrest]

/-- Unfolding of `generate_from_schema` when everything succeeds. -/
theorem generate_from_schema_succ_ok_ok {schema : List (String × FieldSpec)}
    {st : GenState} {r : RecordT} {st1 : GenState} {rs : List RecordT}
    {st2 : GenState} (n : Nat)
    (hr : genRecord schema st = .ok (r, st1))
    (hrest : generate_from_schema schema n st1 = .ok (rs, st2)) :
    generate_from_schema schema (n + 1) st = .ok (r :: rs, st2) := by
  show (match genRecord schema st with
    | Except.error e => Except.error e
    | Except.ok (r, st') =>
      match generate_from_schema schema n st' with
      | Except.error e => Except.error e
      | Except.ok (rs, st'') => Except.ok (r :: rs, st'')) = _
  rw [hr]
  show (match generate_from_schema schema n st1 with
    | Except.error e => Except.error e
    | Except.ok (rs, st'') => Except.ok (r :: rs, st'')) = _
  rw [hrest]

/-- A successfully generated record carries exactly the schema's field
names, in the schema's declared order. -/
theorem genRecord_keys (schema : List (String × FieldSpec)) :
    ∀ st r st', genRecord schema st = .ok (r, st') →
      r.map Prod.fst = schema.map Prod.fst := by
  induction schema with
  | nil =>
    intro st r st' h
    simp only [genRecord, Except.ok.injEq, Prod.mk.injEq] at h
    rw [← h.1]
    rfl
  | cons p rest ih =>
    intro st r st' h
    obtain ⟨fname, spec⟩ := p
    cases hgf : generate_field spec st with
    | error e => rw [genRecord_cons_err fname rest hgf] at h; simp at h
    | ok p1 =>
      obtain ⟨v, st1⟩ := p1
      cases hgr : genRecord rest st1 with
      | error e => rw [genRecord_cons_ok_err fname rest hgf hgr] at h; simp at h
      | ok p2 =>
        obtain ⟨r2, st2⟩ := p2
        rw [genRecord_cons_ok_ok fname rest hgf hgr] at h
        simp only [Except.ok.injEq, Prod.mk.injEq] at h
        rw [← h.1]
        simp only [List.map_cons]
        rw [ih st1 r2 st2 hgr]

/-- C2: `generate_from_schema` with count 0 returns the empty sequence
(and leaves the state untouched), and whenever it returns a sequence at
all, that sequence has exactly `count` records, each carrying exactly the
schema's field names in the schema's declared order (each value coming
from the one `_generate_field` call the record loop makes for its field). -/
theorem generate_from_schema_count_and_order (schema : List (String × FieldSpec)) :
    (∀ st, generate_from_schema schema 0 st = .ok ([], st)) ∧
    (∀ n st records st', generate_from_schema schema n st = .ok (records, st') →
      records.length = n ∧ ∀ r ∈ records, r.map Prod.fst = schema.map Prod.fst) := by
  refine ⟨fun st => rfl, fun n => ?_⟩
  induction n with
  | zero =>
    intro st records st' h
    simp only [generate_from_schema, Except.ok.injEq, Prod.mk.injEq] at h
    rw [← h.1]
    exact ⟨rfl, by simp⟩
  | succ n ih =>
    intro st records st' h
    cases hr : genRecord schema st with
    | error e => rw [generate_from_schema_succ_err n hr] at h; simp at h
    | ok p1 =>
      obtain ⟨r, st1⟩ := p1
      cases hrest : generate_from_schema schema n st1 with
      | error e => rw [generate_from_schema_succ_ok_err n hr hrest] at h; simp at h
      | ok p2 =>
        obtain ⟨rs, st2⟩ := p2
        rw [generate_from_schema_succ_ok_ok n hr hrest] at h
        simp only [Except.ok.injEq, Prod.mk.injEq] at h
        obtain ⟨hlen, hmem⟩ := ih st1 rs st2 hrest
        rw [← h.1]
        refine ⟨by simp [hlen], fun r' hr' => ?_⟩
        rcases List.mem_cons.mp hr' with hr' | hr'
        · rw [hr']
          exact genRecord_keys schema st r st1 hr
        · exact hmem r' hr'

/-- Witness for C2: a two-field schema, count 2, on the test state. -/
theorem generate_from_schema_count_and_order_witness :
    ([[("a", Value.int 1), ("b", Value.str "email#1")],
      [("a", Value.int 3), ("b", Value.str "email#3")]] : List RecordT).length = 2 ∧
    ([("a", Value.int 1), ("b", Value.str "email#1")] : RecordT).map Prod.fst
      = [("a", intSpec 1 3), ("b", FieldSpec.str "email")].map Prod.fst :=
  let h := (generate_from_schema_count_and_order
    [("a", intSpec 1 3), ("b", .str "email")]).2
    2 testState _ ⟨fun i => i, 4, fun i => i + 100, 0⟩ rfl
  ⟨h.1, h.2 _ (List.mem_cons_self _ _)⟩

/-- `genRecord` over a concatenation whose prefix succeeds: the tail
decides the outcome, with the prefix's record prepended on success. -/
theorem genRecord_append_ok (pre : List (String × FieldSpec)) :
    ∀ st r1 st1 (rest : List (String × FieldSpec)),
      genRecord pre st = .ok (r1, st1) →
      genRecord (pre ++ rest) st =
        (match genRecord rest st1 with
         | .error e => .error e
         | .ok (r2, st2) => .ok (r1 ++ r2, st2)) := by
  induction pre with
  | nil =>
    intro st r1 st1 rest h
    simp only [genRecord, Except.ok.injEq, Prod.mk.injEq] at h
    rw [List.nil_append, ← h.1, ← h.2]
    cases genRecord rest st with
    | error e => rfl
    | ok p => rfl
  | cons p pres ih =>
    intro st r1 st1 rest h
    obtain ⟨fname, spec⟩ := p
    rw [List.cons_append]
    cases hgf : generate_field spec st with
    | error e => rw [genRecord_cons_err fname pres hgf] at h; simp at h
    | ok p1 =>
      obtain ⟨v, stA⟩ := p1
      cases hgr : genRecord pres stA with
      | error e => rw [genRecord_cons_ok_err fname pres hgf hgr] at h; simp at h
      | ok p2 =>
        obtain ⟨r2, stB⟩ := p2
        rw [genRecord_cons_ok_ok fname pres hgf hgr] at h
        simp only [Except.ok.injEq, Prod.mk.injEq] at h
        have htail := ih stA r2 stB rest hgr
        cases hrest : genRecord rest stB with
        | error e =>
          have htail2 : genRecord (pres ++ rest) stA = Except.error e := by
            rw [hrest] at htail; exact htail
          rw [genRecord_cons_ok_err fname (pres ++ rest) hgf htail2, ← h.2, hrest]
        | ok p3 =>
          obtain ⟨r3, stC⟩ := p3
          have htail2 : genRecord (pres ++ rest) stA = Except.ok (r2 ++ r3, stC) := by
            rw [hrest] at htail; exact htail
          rw [genRecord_cons_ok_ok fname (pres ++ rest) hgf htail2, ← h.2, hrest,
            ← h.1]
          rfl

/-- C4: if the field resolver fails, the failure propagates.  First
conjunct: within one record, once the fields before `spec` have succeeded,
a failing `spec` makes the whole record generation return exactly that
error, with no partial record and the remaining fields never attempted.
Second conjunct: across records, once `k` records have been generated and
the next record fails, `generate_from_schema` with any larger count
returns exactly that error and no record sequence at all. -/
theorem resolver_failure_propagates :
    (∀ (pre : List (String × FieldSpec)) fname spec
        (rest : List (String × FieldSpec)) st r1 st1 e,
      genRecord pre st = .ok (r1, st1) →
      generate_field spec st1 = .error e →
      genRecord (pre ++ (fname, spec) :: rest) st = .error e) ∧
    (∀ (schema : List (String × FieldSpec)) k n st rs st' e,
      generate_from_schema schema k st = .ok (rs, st') →
      genRecord schema st' = .error e →
      k < n →
      generate_from_schema schema n st = .error e) := by
  constructor
  · intro pre fname spec rest st r1 st1 e hpre hfail
    rw [genRecord_append_ok pre st r1 st1 _ hpre,
      genRecord_cons_err fname rest hfail]
  · intro schema k
    induction k with
    | zero =>
      intro n st rs st' e h0 hfail hlt
      simp only [generate_from_schema, Except.ok.injEq, Prod.mk.injEq] at h0
      match n, hlt with
      | m + 1, _ =>
        exact generate_from_schema_succ_err m (h0.2 ▸ hfail)
    | succ k ih =>
      intro n st rs st' e h0 hfail hlt
      cases hr : genRecord schema st with
      | error eb => rw [generate_from_schema_succ_err k hr] at h0; simp at h0
      | ok p1 =>
        obtain ⟨r, st1⟩ := p1
        cases hrest : generate_from_schema schema k st1 with
        | error eb =>
          rw [generate_from_schema_succ_ok_err k hr hrest] at h0; simp at h0
        | ok p2 =>
          obtain ⟨rs2, st2⟩ := p2
          rw [generate_from_schema_succ_ok_ok k hr hrest] at h0
          simp only [Except.ok.injEq, Prod.mk.injEq] at h0
          match n, hlt with
          | m + 1, hlt =>
            exact generate_from_schema_succ_ok_err m hr
              (ih m st1 rs2 st2 e hrest (h0.2 ▸ hfail) (by omega))

/-- Witness for C4: a succeeding prefix followed by the unknown type
`nope`, and a schema whose very first record fails. -/
theorem resolver_failure_propagates_witness :
    genRecord ([("a", intSpec 1 3)] ++
        ("b", FieldSpec.str "nope") :: [("c", FieldSpec.str "email")])
      testState = .error "Unknown field type: nope" ∧
    generate_from_schema [("b", FieldSpec.str "nope")] 1 testState
      = .error "Unknown field type: nope" :=
  ⟨resolver_failure_propagates.1 [("a", intSpec 1 3)] "b" (.str "nope")
      [("c", .str "email")] testState [("a", Value.int 1)]
      ⟨fun i => i, 1, fun i => i + 100, 0⟩ "Unknown field type: nope" rfl rfl,
   resolver_failure_propagates.2 [("b", FieldSpec.str "nope")] 0 1 testState []
      testState "Unknown field type: nope" rfl rfl (by decide)⟩

/-- Unfolding of `iterateGen` on a positive count. -/
theorem iterateGen_succ (step : GenState → Except String (Value × GenState))
    (n : Nat) (st : GenState) :
    iterateGen step (n + 1) st =
      (match step st with
       | Except.error e => Except.error e
       | Except.ok (v, st') =>
         match iterateGen step n st' with
         | Except.error e => Except.error e
         | Except.ok (vs, st'') => Except.ok (v :: vs, st'')) := rfl

/-- Syntactic validity of a field specification: a scalar name registered
in `_type_map`, or a structured spec with a recognized `type` whose
parameters cannot make resolution raise (an `integer` range must be
non-empty and a `list` must carry an `item` unless its `count` is 0 —
`decimal`, `choice` and `pattern` never raise). -/
def validSpec : FieldSpec → Bool
  | .str s => list_field_types.contains s
  | .dict t mi ma _ _ _ it cnt =>
    if t = some "integer" then decide (mi.getD 0 ≤ ma.getD 100)
    else if t = some "decimal" then true
    else if t = some "choice" then true
    else if t = some "pattern" then true
    else if t = some "list" then
      match it with
      | some i => validSpec i
      | none => decide ((cnt.getD 3).toNat = 0)
    else false
  | .other _ => false

/-- Unfolding of `validSpec` on a structured spec. -/
theorem validSpec_dict (t : Option String) (mi ma : Option Int) (pr : Option Nat)
    (va : Option (List Value)) (pa : Option String) (it : Option FieldSpec)
    (cnt : Option Int) :
    validSpec (.dict t mi ma pr va pa it cnt) =
      (if t = some "integer" then decide (mi.getD 0 ≤ ma.getD 100)
      else if t = some "decimal" then true
      else if t = some "choice" then true
      else if t = some "pattern" then true
      else if t = some "list" then
        match it with
        | some i => validSpec i
        | none => decide ((cnt.getD 3).toNat = 0)
      else false) := by
  cases it with
  | none => rfl
  | some i => rfl

/-- A valid field specification always resolves successfully, from every
generator state. -/
theorem generate_field_ok_of_valid : ∀ (spec : FieldSpec), validSpec spec = true →
    ∀ st, ∃ v st', generate_field spec st = .ok (v, st')
  | .str s, h, st => by
    have hmem : s ∈ List.map Prod.fst type_map := List.mem_of_elem_eq_true h
    obtain ⟨g, hg⟩ := lookup_isSome_of_mem type_map s hmem
    exact ⟨(g st).1, (g st).2, by rw [gf_str, hg]⟩
  | .dict t mi ma pr va pa it cnt, h, st => by
    by_cases h1 : t = some "integer"
    · subst h1
      rw [validSpec_dict, if_pos rfl] at h
      have hle := of_decide_eq_true h
      refine ⟨.int (randintOk (mi.getD 0) (ma.getD 100) st).1,
        (randintOk (mi.getD 0) (ma.getD 100) st).2, ?_⟩
      rw [gf_dict, if_pos rfl]
      unfold randint
      rw [if_pos hle]
    · by_cases h2 : t = some "decimal"
      · subst h2
        refine ⟨(uniformRound (mi.getD 0) (ma.getD 100) (pr.getD 2) st).1,
          (uniformRound (mi.getD 0) (ma.getD 100) (pr.getD 2) st).2, ?_⟩
        rw [gf_dict, if_neg (by decide), if_pos rfl]
      · by_cases h3 : t = some "choice"
        · subst h3
          by_cases hva : (va.getD []).isEmpty
          · refine ⟨.null, st, ?_⟩
            rw [gf_dict, if_neg (by decide), if_neg (by decide), if_pos rfl,
              if_pos hva]
          · refine ⟨(choiceDraw (va.getD []) st).1, (choiceDraw (va.getD []) st).2, ?_⟩
            rw [gf_dict, if_neg (by decide), if_neg (by decide), if_pos rfl,
              if_neg hva]
        · by_cases h4 : t = some "pattern"
          · subst h4
            refine ⟨.str (bothify (pa.getD "") st).1, (bothify (pa.getD "") st).2, ?_⟩
            rw [gf_dict, if_neg (by decide), if_neg (by decide), if_neg (by decide),
              if_pos rfl]
          · by_cases h5 : t = some "list"
            · subst h5
              match it, h with
              | some i, h =>
                have hi : validSpec i = true := h
                have hiter : ∀ n stA, ∃ vsl st',
                    iterateGen (generate_field i) n stA = .ok (vsl, st') := by
                  intro n
                  induction n with
                  | zero => exact fun stA => ⟨[], stA, rfl⟩
                  | succ n ihn =>
                    intro stA
                    obtain ⟨v, st1, hv⟩ := generate_field_ok_of_valid i hi stA
                    obtain ⟨vsl, st2, hrest⟩ := ihn st1
                    refine ⟨v :: vsl, st2, ?_⟩
                    rw [iterateGen_succ, hv]
                    show (match iterateGen (generate_field i) n st1 with
                      | Except.error e => Except.error e
                      | Except.ok (vs, st'') => Except.ok (v :: vs, st'')) = _
                    rw [hrest]
                obtain ⟨vsl, st', hvsl⟩ := hiter (cnt.getD 3).toNat st
                refine ⟨.list vsl, st', ?_⟩
                rw [gf_dict, if_neg (by decide), if_neg (by decide), if_neg (by decide),
                  if_neg (by decide), if_pos rfl]
                show (match iterateGen (generate_field i) (cnt.getD 3).toNat st with
                  | Except.error e => Except.error e
                  | Except.ok (vsl, st') => Except.ok (Value.list vsl, st')) = _
                rw [hvsl]
              | none, h =>
                have hcnt : (cnt.getD 3).toNat = 0 := of_decide_eq_true h
                refine ⟨.list [], st, ?_⟩
                rw [gf_dict, if_neg (by decide), if_neg (by decide), if_neg (by decide),
                  if_neg (by decide), if_pos rfl]
                show (if (cnt.getD 3).toNat = 0 then
                    (Except.ok (Value.list [], st) : Except String (Value × GenState))
                  else Except.error "Invalid field specification: None") = _
                rw [if_pos hcnt]
            · exfalso
              rw [validSpec_dict, if_neg h1, if_neg h2, if_neg h3, if_neg h4,
                if_neg h5] at h
              exact Bool.noConfusion h
  | .other r, h, st => by exact Bool.noConfusion h

/-- Validity of a whole schema: every field specification is valid. -/
def validSchema (schema : List (String × FieldSpec)) : Bool :=
  schema.all (fun p => validSpec p.2)

/-- A valid schema always yields a record, from every state. -/
theorem genRecord_ok_of_valid (schema : List (String × FieldSpec))
    (h : validSchema schema = true) :
    ∀ st, ∃ r st', genRecord schema st = .ok (r, st') := by
  induction schema with
  | nil => exact fun st => ⟨[], st, rfl⟩
  | cons p rest ih =>
    intro st
    obtain ⟨fname, spec⟩ := p
    simp only [validSchema, List.all_cons, Bool.and_eq_true] at h
    obtain ⟨v, st1, hv⟩ := generate_field_ok_of_valid spec h.1 st
    obtain ⟨r, st2, hr⟩ := ih h.2 st1
    exact ⟨(fname, v) :: r, st2, genRecord_cons_ok_ok fname rest hv hr⟩

/-- A valid schema always yields its full record sequence. -/
theorem generate_from_schema_ok_of_valid (schema : List (String × FieldSpec))
    (h : validSchema schema = true) :
    ∀ n st, ∃ rs st', generate_from_schema schema n st = .ok (rs, st') := by
  intro n
  induction n with
  | zero => exact fun st => ⟨[], st, rfl⟩
  | succ n ihn =>
    intro st
    obtain ⟨r, st1, hr⟩ := genRecord_ok_of_valid schema h st
    obtain ⟨rs, st2, hrest⟩ := ihn st1
    exact ⟨r :: rs, st2, generate_from_schema_succ_ok_ok n hr hrest⟩

/-- C10: every field specification of every built-in template is valid —
each scalar name is a key of `_type_map` and each structured spec uses a
recognized type with safe parameters — and consequently `generate` on a
registered template name never raises, for every count and state. -/
theorem templates_always_generate :
    (TEMPLATES.all (fun t => validSchema t.2)) = true ∧
    ∀ name count st, name ∈ list_templates →
      ∃ records st', generate name count st = .ok (records, st') := by
  refine ⟨by decide, fun name count st h => ?_⟩
  simp only [list_templates, TEMPLATES, List.map_cons, List.map_nil,
    List.mem_cons, List.not_mem_nil, or_false] at h
  rcases h with rfl | rfl | rfl | rfl | rfl | rfl | rfl | rfl
  · exact generate_from_schema_ok_of_valid _ (by decide) count st
  · exact generate_from_schema_ok_of_valid _ (by decide) count st
  · exact generate_from_schema_ok_of_valid _ (by decide) count st
  · exact generate_from_schema_ok_of_valid _ (by decide) count st
  · exact generate_from_schema_ok_of_valid _ (by decide) count st
  · exact generate_from_schema_ok_of_valid _ (by decide) count st
  · exact generate_from_schema_ok_of_valid _ (by decide) count st
  · exact generate_from_schema_ok_of_valid _ (by decide) count st

/-- Witness for C10: the `user` template with count 1 on the test state. -/
theorem templates_always_generate_witness :
    ∃ records st', generate "user" 1 testState = .ok (records, st') :=
  templates_always_generate.2 "user" 1 testState (by decide)

/-- C1 (refuted on the code): two generators constructed with the same
seed 42 have identical seeded streams, yet on the schema
`{id: 'uuid'}` with count 1 they produce different JSON-formatted output
whenever the ambient OS entropy differs between the two runs —
`uuid.uuid4()` (like `datetime.utcnow()`) ignores `random.seed` and
`Faker.seed`, so a fixed seed does not make the output byte-identical. -/
theorem same_seed_uuid_output_differs :
    (mkGenerator 42 (fun _ => 0)).seeded = (mkGenerator 42 (fun _ => 1)).seeded ∧
    (match generate_from_schema [("id", FieldSpec.str "uuid")] 1
        (mkGenerator 42 (fun _ => 0)) with
     | .ok (rs, _) => JSONFormatter.format {} rs
     | .error e => e) ≠
    (match generate_from_schema [("id", FieldSpec.str "uuid")] 1
        (mkGenerator 42 (fun _ => 1)) with
     | .ok (rs, _) => JSONFormatter.format {} rs
     | .error e => e) :=
  ⟨rfl, by decide⟩

end TestdataGen
